import Mathlib

/-!
Verification of the audiofile repository's offset/duration normalization,
read short-circuit, metadata fallback chains, and write validation.

Floating-point seconds are modelled by exact rationals; the IEEE infinities
that `_normalize_offset_duration` handles explicitly are modelled by the
`ETime` type (finite rational, plus `+inf` and `-inf`).  NaN never reaches
the modelled code: `_parse_time_value` turns NaN into `None` beforehand,
so an absent value is `Option.none` and every present value is an `ETime`.
-/

namespace Audiofile

/-- A parsed time value in seconds: a finite rational or an infinity.
Mirrors the Python `float` values reaching `_normalize_offset_duration`. -/
inductive ETime where
  | fin (x : ℚ)
  | pinf
  | ninf
deriving DecidableEq

namespace ETime

/-- `value < 0` on floats (`-inf < 0` is true, `+inf < 0` is false). -/
def isNeg : ETime → Bool
  | .fin x => decide (x < 0)
  | .pinf => false
  | .ninf => true

/-- `value >= 0` on floats (`+inf >= 0` is true, `-inf >= 0` is false). -/
def isNonneg : ETime → Bool
  | .fin x => decide (0 ≤ x)
  | .pinf => true
  | .ninf => false

/-- `value > 0` on floats. -/
def isPos : ETime → Bool
  | .fin x => decide (0 < x)
  | .pinf => true
  | .ninf => false

/-- `np.isinf`. -/
def isInf : ETime → Bool
  | .fin _ => false
  | .pinf => true
  | .ninf => true

/-- `np.sign`. -/
def signQ : ETime → ℚ
  | .fin x => if x < 0 then -1 else if 0 < x then 1 else 0
  | .pinf => 1
  | .ninf => -1

/-- `sd + value` where `sd` is a finite float (the signal duration):
adding a finite number to an infinity keeps the infinity. -/
def shift (sd : ℚ) : ETime → ETime
  | .fin x => .fin (sd + x)
  | .pinf => .pinf
  | .ninf => .ninf

/-- `max(0, value)` on floats: `max(0, -inf) = 0`, `max(0, +inf) = +inf`. -/
def max0 : ETime → ETime
  | .fin x => .fin (max 0 x)
  | .pinf => .pinf
  | .ninf => .fin 0

/-- The rational carried by a finite value.  Only evaluated where the
source guarantees finiteness (after the `np.isinf` branches have fired);
the junk value for infinities is never reached in the modelled paths. -/
def toQ : ETime → ℚ
  | .fin x => x
  | .pinf => 0
  | .ninf => 0

end ETime

/-- Embedding of `_normalize_offset_duration(offset, duration, signal_duration)`
from `audiofile/core/io.py` (lines 62-160), branch by branch, in source
order.  `none` models Python `None`; `sd` is `signal_duration` (finite). -/
def normOffDur (offset duration : Option ETime) (sd : ℚ) : ETime × Option ETime :=
  match offset, duration with
  | none, some d =>
    -- Handle: offset=None, duration < 0
    if d.isNeg then (ETime.max0 (ETime.shift sd d), none)
    -- Handle: offset=None, duration >= 0
    else if d.isInf then (.fin 0, none)
    else (.fin 0, some d)
  -- Guard: offset is None at this point means both are None
  | none, none => (.fin 0, none)
  | some o, none =>
    -- Handle: offset < 0, duration=None
    if o.isNeg then (ETime.max0 (ETime.shift sd o), none)
    -- Handle: offset >= 0, duration=None
    else if o.isInf then (.fin 0, some (.fin 0))
    else (o, none)
  | some o, some d =>
    if o.isNonneg then
      if d.isNeg then
        -- Handle: offset >= 0, duration < 0
        if o.isInf && d.isInf then (.fin 0, none)
        else if o.isInf then (.fin 0, some (.fin 0))
        else
          -- offset is finite here; resolve duration = -inf first
          let od : ℚ × ℚ :=
            if d.isInf then (min o.toQ sd, d.signQ * sd) else (o.toQ, d.toQ)
          -- orig_offset = offset; offset = max(0, offset + duration);
          -- duration = min(-duration, orig_offset)
          (.fin (max 0 (od.1 + od.2)), some (.fin (min (-od.2) od.1)))
      else
        -- Handle: offset >= 0, duration >= 0
        if o.isInf then (.fin 0, some (.fin 0))
        else if d.isInf then (o, none)
        else (o, some d)
    else
      if d.isPos then
        -- Handle: offset < 0, duration > 0
        if o.isInf && d.isInf then (.fin 0, none)
        else if o.isInf then (.fin 0, some (.fin 0))
        else if d.isInf then (ETime.max0 (.fin (sd + o.toQ)), none)
        else
          let o' : ℚ := sd + o.toQ
          if o' < 0 then (.fin 0, some (.fin (max 0 (d.toQ + o'))))
          else (.fin o', some (.fin (min d.toQ (sd - o'))))
      else if d.isNeg then
        -- Handle: offset < 0, duration < 0
        if o.isInf then (.fin 0, some (.fin 0))
        else if d.isInf then (o, some (.fin (-sd)))
        else
          -- orig_offset = offset; offset = max(0, sd + offset + duration);
          -- duration = max(0, min(-duration, sd + orig_offset))
          (.fin (max 0 (sd + o.toQ + d.toQ)),
           some (.fin (max 0 (min (-d.toQ) (sd + o.toQ)))))
      else
        -- Fallback (should not reach here): only offset < 0, duration == 0
        -- `return offset if offset >= 0 else 0, duration`
        (.fin 0, some d)

/-- A non-negative finite offset together with an absent or non-negative
finite duration is a fixed point of `normOffDur`: such a pair falls into
the `offset >= 0, duration=None` or `offset >= 0, duration >= 0` branch,
which returns it unchanged. -/
theorem normOffDur_fixed (x : ℚ) (d : Option ETime) (sd : ℚ) (hx : 0 ≤ x)
    (hd : d = none ∨ ∃ y : ℚ, d = some (.fin y) ∧ 0 ≤ y) :
    normOffDur (some (.fin x)) d sd = (.fin x, d) := by
  rcases hd with rfl | ⟨y, rfl, hy⟩
  · simp [normOffDur, ETime.isNeg, ETime.isInf, hx.not_lt]
  · simp [normOffDur, ETime.isNeg, ETime.isInf, ETime.isNonneg, hx, hy.not_lt]

/-- C1: the spec and the function's own docstring promise that
`_normalize_offset_duration` returns `offset' >= 0` and `duration'` absent
or `>= 0` for every offset/duration drawn from
{absent, non-negative finite, negative finite, +inf, -inf} and every
`signal_duration >= 0`.  The code violates this: for a finite negative
offset and `duration = -inf` the `offset < 0 and duration < 0` branch
resolves `duration = -signal_duration` and returns without clamping, so at
offset = -1/2 s, duration = -inf, signal_duration = 3 s it returns
(-1/2, -3), a negative offset and a negative duration. -/
theorem normalize_c1_negative_output :
    normOffDur (some (.fin (-1/2))) (some .ninf) 3 = (.fin (-1/2), some (.fin (-3)))
    ∧ ETime.isNeg (.fin (-1/2)) = true ∧ ETime.isNeg (.fin (-3)) = true := by
  refine ⟨?_, by norm_num [ETime.isNeg], by norm_num [ETime.isNeg]⟩
  norm_num [normOffDur, ETime.isNeg, ETime.isInf, ETime.isNonneg, ETime.isPos]

/-- C2: the claimed rule for negative offset and negative duration is
`offset' = max(0, signal_duration + offset + duration)` and
`duration' = max(0, min(-duration, signal_duration + original_offset))`;
at offset = -1 s, duration = -inf, signal_duration = 3 s this rule yields
(0, 2), but the code's `offset < 0 and duration < 0` branch returns
(-1, -3) for that input: it substitutes `duration = -signal_duration` and
skips the clamping step instead of falling through to it. -/
theorem normalize_c2_formula_violation :
    normOffDur (some (.fin (-1))) (some .ninf) 3 = (.fin (-1), some (.fin (-3)))
    ∧ ((ETime.fin (-1), some (ETime.fin (-3)))
        ≠ (ETime.fin 0, some (ETime.fin 2))) := by
  constructor
  · norm_num [normOffDur, ETime.isNeg, ETime.isInf, ETime.isNonneg, ETime.isPos]
  · simp [Prod.ext_iff]

/-- C5: idempotence of Step 2 — whenever `_normalize_offset_duration`
returned a pair whose offset is a non-negative finite number and whose
duration is absent or a non-negative finite number, running the pair
through `_normalize_offset_duration` again with the same signal duration
returns it unchanged. -/
theorem normalize_idempotent (offset duration : Option ETime) (sd : ℚ)
    (o' : ETime) (d' : Option ETime)
    (hout : normOffDur offset duration sd = (o', d'))
    (ho : ∃ x : ℚ, o' = .fin x ∧ 0 ≤ x)
    (hd : d' = none ∨ ∃ y : ℚ, d' = some (.fin y) ∧ 0 ≤ y) :
    normOffDur (some o') d' sd = (o', d') := by
  obtain ⟨x, rfl, hx⟩ := ho
  exact normOffDur_fixed x d' sd hx hd

/-- Witness for C5: the output (1/2, 1/2) of normalizing offset = 1 s,
duration = -1/2 s against a 3 s signal is itself a fixed point. -/
theorem normalize_idempotent_witness :
    normOffDur (some (.fin (1/2))) (some (.fin (1/2))) 3
      = (.fin (1/2), some (.fin (1/2))) :=
  normalize_idempotent (some (.fin 1)) (some (.fin (-1/2))) 3
    (.fin (1/2)) (some (.fin (1/2)))
    (by norm_num [normOffDur, ETime.isNonneg, ETime.isNeg, ETime.isInf,
          ETime.toQ, ETime.signQ])
    ⟨1/2, rfl, by norm_num⟩
    (Or.inr ⟨1/2, rfl, by norm_num⟩)

/-! ## The read path (`read` in `audiofile/core/io.py`, lines 424-509)

Offset and duration reach `read`'s body already parsed to seconds
(`_parse_time_value`), so they are modelled as `Option ETime` directly.
A file is modelled by its decoded frame sequence (one rational per frame,
the content of one channel), its sampling rate, its channel count and
whether its extension is one of the soundfile formats (SNDFORMATS). -/

/-- An audio file as the read path sees it. -/
structure AudioData where
  frames : List ℚ
  rate : ℕ
  channels : ℕ
  native : Bool

/-- `np.round` to the nearest integer, rounding exact halves to even —
the "evenly rounded" conversion of `audmath.samples`. -/
def roundHalfEven (x : ℚ) : ℤ :=
  let f := ⌊x⌋
  let r := x - (f : ℚ)
  if r < 1/2 then f
  else if 1/2 < r then f + 1
  else if f % 2 = 0 then f else f + 1

/-- `audmath.samples(value, sampling_rate)`: seconds times rate, evenly
rounded to an integer sample count. -/
def audmathSamples (x : ℚ) (rate : ℕ) : ℤ := roundHalfEven (x * rate)

/-- Python `slice(start, stop).indices(n)` endpoint resolution for step 1:
a negative index counts from the end and is clamped below by 0, a
non-negative index is clamped above by `n`. -/
def pySliceIndex (i n : ℤ) : ℤ := if i < 0 then max 0 (n + i) else min i n

/-- `soundfile.read(file, start=start, stop=stop)`: start/stop are resolved
like Python slice endpoints over the file's frames and
`max(0, stop - start)` frames are returned from the start position. -/
def sfRead (xs : List ℚ) (start : ℤ) (stop : Option ℤ) : List ℚ :=
  let n : ℤ := xs.length
  let s := pySliceIndex start n
  let e := match stop with
    | none => n
    | some j => pySliceIndex j n
  (xs.drop s.toNat).take (e - s).toNat

/-- The shape of the empty array built by `_create_empty_signal`
(`io.py` lines 163-182): 2-D `(channels, 0)` or 1-D `(0,)`. -/
inductive EmptyShape where
  | twoD (channels : ℕ)
  | oneD
deriving DecidableEq

/-- `_create_empty_signal(file, always_2d)`: a `(channels, 0)` array if
`channels > 1 or always_2d`, else a `(0,)` array. -/
def createEmptySignal (channels : ℕ) (always2d : Bool) : EmptyShape :=
  if 1 < channels ∨ always2d = true then .twoD channels else .oneD

/-- What `read` produced: the zero-duration short-circuit (no decoder was
invoked), a native `soundfile.read` slice, or an invocation of the
external converter (`convert`) with offset/duration in seconds. -/
inductive ReadResult where
  | empty (shape : EmptyShape)
  | decoded (signal : List ℚ)
  | transcoded (offsetSec : ℚ) (durationSec : Option ℚ)
deriving DecidableEq

/-- The `needs_normalization` condition of `read` (lines 438-440): some
offset or duration is present and negative or infinite. -/
def needsNorm (offset duration : Option ETime) : Bool :=
  (match offset with
   | some o => o.isNeg || o.isInf
   | none => false)
  ||
  (match duration with
   | some d => d.isNeg || d.isInf
   | none => false)

/-- The file's duration in seconds as `audiofile.core.info.duration`
reports it for a native file: `soundfile.info(file).duration`, i.e.
frames divided by sampling rate. -/
def fileDuration (f : AudioData) : ℚ := (f.frames.length : ℚ) / f.rate

/-- Lines 437-446 of `read`: run `_normalize_offset_duration` on the
parsed pair exactly when some value is negative or infinite. -/
def normalizePair (f : AudioData) (offset duration : Option ETime) :
    Option ETime × Option ETime :=
  if needsNorm offset duration then
    let p := normOffDur offset duration (fileDuration f)
    (some p.1, p.2)
  else (offset, duration)

/-- The duration variable after the sample-conversion step (lines
449-450): `some k` is an integer sample count (or the unconverted zero),
`none` is Python `None`.  Normalization never returns an infinite
duration, so `toQ` only ever extracts a genuinely finite value here. -/
def durationSamples (f : AudioData) (offset duration : Option ETime) :
    Option ℤ :=
  match (normalizePair f offset duration).2 with
  | none => none
  | some d => if d.toQ ≠ 0 then some (audmathSamples d.toQ f.rate) else some 0

/-- The offset variable after its sample conversion (lines 455-458). -/
def offsetSamples (f : AudioData) (offset duration : Option ETime) : ℤ :=
  match (normalizePair f offset duration).1 with
  | none => 0
  | some o => if o.toQ ≠ 0 then audmathSamples o.toQ f.rate else 0

/-- Embedding of the body of `read` (lines 437-509) for already-parsed
offset/duration values: normalize, convert the duration to samples,
short-circuit on a zero duration, convert the offset to samples, then
either slice natively with `soundfile.read` or hand offset/duration (in
seconds again, lines 472-475) to the external converter. -/
def readModel (f : AudioData) (offset duration : Option ETime)
    (always2d : Bool) : ReadResult :=
  let ds := durationSamples f offset duration
  if ds = some 0 then .empty (createEmptySignal f.channels always2d)
  else
    let os := offsetSamples f offset duration
    if f.native then
      .decoded (sfRead f.frames os (ds.map (· + os)))
    else
      .transcoded (if os ≠ 0 then (os : ℚ) / f.rate else 0)
        (ds.map fun k => if k ≠ 0 then (k : ℚ) / f.rate else (0 : ℚ))

/-- The 3-second mono signal sampled at 2 Hz with values
[0, 0, 0.1, 0.1, 0.2, 0.2], stored in a native (soundfile) format — the
acceptance example of the spec and of the repository's test-suite. -/
def testFile : AudioData := ⟨[0, 0, 1/10, 1/10, 1/5, 1/5], 2, 1, true⟩

/-- C3 (counterexample): on the 3 s / 2 Hz test signal, the claim says
`read(offset=1.5, duration=-1.0)` returns [[0.1, 0.2]].  The code (and the
repository's own test-suite, `test_audiofile.py` row `(1.5, -1.0,
[[0.0, 0.1]])`) instead normalizes the pair to offset = 0.5 s,
duration = 1.0 s and returns the samples [0.0, 0.1]. -/
theorem read_c3_counterexample :
    readModel testFile (some (.fin (3/2))) (some (.fin (-1))) false
      = ReadResult.decoded [0, 1/10]
    ∧ ReadResult.decoded [(0 : ℚ), 1/10] ≠ ReadResult.decoded [1/10, 1/5] := by
  constructor
  · norm_num [readModel, durationSamples, offsetSamples, normalizePair, needsNorm,
      normOffDur, fileDuration, audmathSamples, roundHalfEven, sfRead, pySliceIndex,
      testFile, ETime.isNeg, ETime.isInf, ETime.isNonneg, ETime.isPos, ETime.toQ,
      ETime.signQ, ETime.shift, ETime.max0]
    rfl
  · simp only [ne_eq, ReadResult.decoded.injEq, List.cons.injEq, and_imp]
    norm_num

/-- C3 (amended): on the 3 s / 2 Hz test signal [0, 0, 0.1, 0.1, 0.2, 0.2],
`read(offset=None, duration=-0.5)` returns the signal [0.2], and
`read(offset=1.5, duration=-1.0)` returns the signal [0.0, 0.1]. -/
theorem read_negative_duration_examples :
    readModel testFile none (some (.fin (-1/2))) false
      = ReadResult.decoded [1/5]
    ∧ readModel testFile (some (.fin (3/2))) (some (.fin (-1))) false
        = ReadResult.decoded [0, 1/10] := by
  constructor
  · norm_num [readModel, durationSamples, offsetSamples, normalizePair, needsNorm,
      normOffDur, fileDuration, audmathSamples, roundHalfEven, sfRead, pySliceIndex,
      testFile, ETime.isNeg, ETime.isInf, ETime.isNonneg, ETime.isPos, ETime.toQ,
      ETime.signQ, ETime.shift, ETime.max0]
    rfl
  · norm_num [readModel, durationSamples, offsetSamples, normalizePair, needsNorm,
      normOffDur, fileDuration, audmathSamples, roundHalfEven, sfRead, pySliceIndex,
      testFile, ETime.isNeg, ETime.isInf, ETime.isNonneg, ETime.isPos, ETime.toQ,
      ETime.signQ, ETime.shift, ETime.max0]
    rfl

/-- C4: whenever the normalized duration converts to exactly 0 samples,
`read` short-circuits: it returns the empty signal shaped by
`_create_empty_signal` — `(channels, 0)` when `always_2d` is true or the
file has more than one channel, `(0,)` for a mono file with `always_2d`
false — and neither the native decoder nor the external converter is
invoked (the result is the `empty` constructor, not `decoded` or
`transcoded`, for native and non-native files alike). -/
theorem read_zero_duration_short_circuit (f : AudioData)
    (offset duration : Option ETime) (always2d : Bool)
    (h : durationSamples f offset duration = some 0) :
    readModel f offset duration always2d
      = ReadResult.empty (createEmptySignal f.channels always2d)
    ∧ (always2d = true ∨ 1 < f.channels →
        createEmptySignal f.channels always2d = .twoD f.channels)
    ∧ (f.channels = 1 ∧ always2d = false →
        createEmptySignal f.channels always2d = .oneD) := by
  refine ⟨by simp [readModel, h], ?_, ?_⟩
  · intro h2
    rcases h2 with h2 | h2
    · simp [createEmptySignal, h2]
    · simp [createEmptySignal, h2]
  · rintro ⟨h1, h2⟩
    simp [createEmptySignal, h1, h2]

/-- Witness for C4: duration = 0.1 s at 2 Hz converts to round(0.2) = 0
samples, so reading the mono test file with `always_2d=False` returns the
empty `(0,)`-shaped signal without decoding. -/
theorem read_zero_duration_short_circuit_witness :
    readModel testFile none (some (.fin (1/10))) false
      = ReadResult.empty (createEmptySignal testFile.channels false)
    ∧ createEmptySignal testFile.channels false = .oneD := by
  have h := read_zero_duration_short_circuit testFile none (some (.fin (1/10))) false
    (by norm_num [durationSamples, normalizePair, needsNorm, ETime.isNeg,
        ETime.isInf, ETime.toQ, audmathSamples, roundHalfEven, testFile])
  exact ⟨h.1, h.2.2 ⟨rfl, rfl⟩⟩

/-! ## The write path (`write` in `audiofile/core/io.py`, lines 512-598)

`write` only path-normalizes the file name before its validation checks;
the first file I/O is the final `soundfile.write` call, modelled by the
`.ok` result carrying the computed subtype.  The signal array only
matters through its flattened values (for peak normalization) and its
leading shape dimension (the channel count), so those are the model's
parameters. -/

/-- `MAX_CHANNELS` from `audiofile/core/utils.py` (lines 25-30): maximum
number of channels per format; any other key is a Python `KeyError`,
modelled by `none`. -/
def MAX_CHANNELS : String → Option ℕ
  | "wav" => some 65535
  | "ogg" => some 255
  | "mp3" => some 2
  | "flac" => some 8
  | _ => none

/-- The `depth_mapping` dict of `write` for WAV targets (lines 560-565);
its keys are already in sorted order. -/
def wavDepthMapping : List (ℕ × String) :=
  [(8, "PCM_U8"), (16, "PCM_16"), (24, "PCM_24"), (32, "PCM_32")]

/-- The `depth_mapping` dict of `write` for FLAC targets (lines 567-571). -/
def flacDepthMapping : List (ℕ × String) :=
  [(8, "PCM_S8"), (16, "PCM_16"), (24, "PCM_24")]

/-- The sorted `bit_depths` list `write` validates against: present only
for WAV and FLAC targets, absent (no check at all) otherwise. -/
def allowedDepths (fileType : String) : Option (List ℕ) :=
  if fileType = "wav" then some (wavDepthMapping.map Prod.fst)
  else if fileType = "flac" then some (flacDepthMapping.map Prod.fst)
  else none

/-- The RuntimeError message for a disallowed bit depth (lines 575-578):
names the allowed set, e.g. `"bit_depth" has to be one of 8, 16, 24, 32.` -/
def bitDepthErrorMsg (depths : List ℕ) : String :=
  "\x22bit_depth\x22 has to be one of "
    ++ String.intercalate (", ") (depths.map toString) ++ "."

/-- The hint appended for non-WAV targets (lines 588-591). -/
def wavHint : String := " Consider using \x27wav\x27 instead."

/-- `hint` as computed in `write`: empty for WAV, the suggestion to use
WAV otherwise. -/
def channelHint (fileType : String) : String :=
  if fileType = "wav" then "" else wavHint

/-- The RuntimeError message for too many channels (lines 592-595):
names the format's maximum. -/
def maxChannelsErrorMsg (fileType : String) (maxCh : ℕ) : String :=
  "The maximum number of allowed channels for \x27" ++ fileType
    ++ "\x27 is " ++ toString maxCh ++ "." ++ channelHint fileType

/-- What the validation prefix of `write` can raise before any file I/O. -/
inductive WriteError where
  | runtime (msg : String)
  | keyError (key : String)
deriving DecidableEq

/-- Embedding of the validation prefix of `write` (lines 556-595): for
WAV/FLAC check the bit depth against the depth-mapping keys and compute
the soundfile subtype (`None` for other formats), then look up the
format's channel limit and check the channel count; only when both checks
pass does control reach `soundfile.write`, modelled by `.ok subtype`. -/
def writeValidate (fileType : String) (bitDepth : ℕ) (channels : ℕ) :
    Except WriteError (Option String) :=
  let depthMapping : List (ℕ × String) :=
    if fileType = "wav" then wavDepthMapping
    else if fileType = "flac" then flacDepthMapping
    else []
  let subtypeResult : Except WriteError (Option String) :=
    if fileType = "wav" ∨ fileType = "flac" then
      if bitDepth ∈ depthMapping.map Prod.fst then .ok (depthMapping.lookup bitDepth)
      else .error (.runtime (bitDepthErrorMsg (depthMapping.map Prod.fst)))
    else .ok none
  match subtypeResult with
  | .error e => .error e
  | .ok subtype =>
    match MAX_CHANNELS fileType with
    | none => .error (.keyError fileType)
    | some maxCh =>
      if maxCh < channels then
        .error (.runtime (maxChannelsErrorMsg fileType maxCh))
      else .ok subtype

/-- `np.max(np.abs(signal))` over the flattened signal values. -/
def maxAbs (signal : List ℚ) : ℚ := signal.foldr (fun x m => max |x| m) 0

/-- The divisor of `write`'s `normalize` branch (line 597):
`np.max(np.abs(signal))`, used with no guard against zero. -/
def writeDivisor (signal : List ℚ) : ℚ := maxAbs signal

/-- The signal `write` hands to `soundfile.write` (lines 596-598):
divided elementwise by `writeDivisor` when `normalize` is set. -/
def writeSignalTransform (signal : List ℚ) (normalize : Bool) : List ℚ :=
  if normalize then signal.map (fun x => x / writeDivisor signal) else signal

theorem maxAbs_nonneg (s : List ℚ) : 0 ≤ maxAbs s := by
  induction s with
  | nil => simp [maxAbs]
  | cons a t ih =>
    simp only [maxAbs, List.foldr_cons] at *
    exact le_max_of_le_right ih

theorem maxAbs_map_div (s : List ℚ) (M : ℚ) (hM : 0 < M) :
    maxAbs (s.map (fun x => x / M)) = maxAbs s / M := by
  induction s with
  | nil => simp [maxAbs]
  | cons a t ih =>
    simp only [maxAbs, List.map_cons, List.foldr_cons] at *
    rw [ih, abs_div, abs_of_pos hM, max_div_div_right hM.le]

theorem maxAbs_all_zero (s : List ℚ) (h : ∀ x ∈ s, x = 0) : maxAbs s = 0 := by
  induction s with
  | nil => rfl
  | cons a t ih =>
    have ha : a = 0 := h a (by simp)
    have ht : maxAbs t = 0 := ih (fun x hx => h x (by simp [hx]))
    show max |a| (maxAbs t) = 0
    rw [ha, ht]
    simp

/-- C6: with `normalize=True`, `write` divides the signal by its own peak
absolute value, so the written peak is exactly 1 whenever the peak is
nonzero; the divisor is used with no zero guard, and for an all-zero
signal that divisor is exactly 0, so the division-by-zero branch is
reachable. -/
theorem write_normalize_peak (signal : List ℚ) :
    (writeDivisor signal ≠ 0 → maxAbs (writeSignalTransform signal true) = 1)
    ∧ ((∀ x ∈ signal, x = 0) → writeDivisor signal = 0) := by
  constructor
  · intro h
    have hpos : 0 < maxAbs signal :=
      lt_of_le_of_ne (maxAbs_nonneg signal) (Ne.symm h)
    simp only [writeSignalTransform, writeDivisor, if_pos]
    rw [maxAbs_map_div signal (maxAbs signal) hpos, div_self (ne_of_gt hpos)]
  · intro h
    exact maxAbs_all_zero signal h

/-- Witness for C6: normalizing [1/2, 0] yields peak exactly 1; the
divisor for the silent signal [0, 0] is exactly 0. -/
theorem write_normalize_peak_witness :
    maxAbs (writeSignalTransform [1/2, 0] true) = 1
    ∧ writeDivisor [(0 : ℚ), 0] = 0 := by
  constructor
  · exact (write_normalize_peak [1/2, 0]).1
      (by norm_num [writeDivisor, maxAbs])
  · exact (write_normalize_peak [0, 0]).2 (by intro x hx; simpa using hx)

/-- C7: the validation prefix of `write` rejects — before any file I/O —
every bit depth outside the target's allowed set (WAV: 8/16/24/32,
FLAC: 8/16/24) with a message naming that set, and every channel count
above the target's `MAX_CHANNELS` limit with a message naming that
maximum.  The two literal messages are spelled out for the claim's
particular instances (bit_depth=1 to WAV, 9 channels to FLAC). -/
theorem write_rejects_invalid_parameters (fileType : String)
    (bitDepth channels : ℕ)
    (hft : fileType = "wav" ∨ fileType = "flac" ∨ fileType = "ogg"
      ∨ fileType = "mp3") :
    (∀ ds, allowedDepths fileType = some ds → bitDepth ∉ ds →
      writeValidate fileType bitDepth channels
        = Except.error (.runtime (bitDepthErrorMsg ds)))
    ∧ (∀ maxCh, MAX_CHANNELS fileType = some maxCh → maxCh < channels →
        (∀ ds, allowedDepths fileType = some ds → bitDepth ∈ ds) →
        writeValidate fileType bitDepth channels
          = Except.error (.runtime (maxChannelsErrorMsg fileType maxCh)))
    ∧ bitDepthErrorMsg [8, 16, 24, 32]
        = "\x22bit_depth\x22 has to be one of 8, 16, 24, 32."
    ∧ maxChannelsErrorMsg ("flac") 8
        = "The maximum number of allowed channels for \x27flac\x27 is 8."
          ++ " Consider using \x27wav\x27 instead." := by
  refine ⟨?_, ?_, by rfl, by rfl⟩
  · intro ds hds hmem
    rcases hft with rfl | rfl | rfl | rfl
    · simp only [allowedDepths, if_pos] at hds
      rw [Option.some_inj] at hds
      subst hds
      simp [writeValidate, wavDepthMapping] at hmem ⊢
      simp [hmem]
    · simp only [allowedDepths] at hds
      rw [if_neg (by decide)] at hds
      simp only [if_true, Option.some_inj] at hds
      subst hds
      simp [writeValidate, flacDepthMapping] at hmem ⊢
      simp [hmem]
    · simp [allowedDepths] at hds
    · simp [allowedDepths] at hds
  · intro maxCh hmax hch hbd
    rcases hft with rfl | rfl | rfl | rfl
    · simp only [MAX_CHANNELS, Option.some_inj] at hmax
      subst hmax
      have hb := hbd (wavDepthMapping.map Prod.fst) (by simp [allowedDepths])
      simp [writeValidate, hb, MAX_CHANNELS, hch]
    · simp only [MAX_CHANNELS, Option.some_inj] at hmax
      subst hmax
      have hb := hbd (flacDepthMapping.map Prod.fst) (by simp [allowedDepths])
      simp [writeValidate, hb, MAX_CHANNELS, hch]
    · simp only [MAX_CHANNELS, Option.some_inj] at hmax
      subst hmax
      simp [writeValidate, MAX_CHANNELS, hch]
    · simp only [MAX_CHANNELS, Option.some_inj] at hmax
      subst hmax
      simp [writeValidate, MAX_CHANNELS, hch]

/-- Witness for C7: 9 channels to FLAC raises the channel error naming 8;
bit_depth=1 to WAV raises the bit-depth error naming 8, 16, 24, 32. -/
theorem write_rejects_invalid_parameters_witness :
    writeValidate ("flac") 16 9
      = Except.error (.runtime (maxChannelsErrorMsg ("flac") 8))
    ∧ writeValidate ("wav") 1 1
      = Except.error
          (.runtime (bitDepthErrorMsg (wavDepthMapping.map Prod.fst))) := by
  constructor
  · exact (write_rejects_invalid_parameters "flac" 16 9
      (Or.inr (Or.inl rfl))).2.1 8 (by simp [MAX_CHANNELS]) (by norm_num)
      (fun ds hds => by
        simp only [allowedDepths] at hds
        rw [if_neg (by decide)] at hds
        simp only [if_true, Option.some_inj] at hds
        subst hds
        simp [flacDepthMapping])
  · exact (write_rejects_invalid_parameters "wav" 1 1 (Or.inl rfl)).1
      (wavDepthMapping.map Prod.fst) (by simp [allowedDepths])
      (by norm_num [wavDepthMapping])

/-- C10: for an OGG or MP3 target, `write` performs no bit-depth check at
all: every `bit_depth` value (e.g. 1) is accepted, silently ignored, and
control reaches the encoder with `subtype=None`, as long as the channel
count is within the format's limit. -/
theorem write_ogg_mp3_ignores_bit_depth (fileType : String)
    (bitDepth channels : ℕ)
    (hft : fileType = "ogg" ∨ fileType = "mp3")
    (hch : ∀ maxCh, MAX_CHANNELS fileType = some maxCh → channels ≤ maxCh) :
    writeValidate fileType bitDepth channels = Except.ok none := by
  rcases hft with rfl | rfl
  · have h := hch 255 (by simp [MAX_CHANNELS])
    simp [writeValidate, MAX_CHANNELS, not_lt.mpr h]
  · have h := hch 2 (by simp [MAX_CHANNELS])
    simp [writeValidate, MAX_CHANNELS, not_lt.mpr h]

/-- Witness for C10: writing mono with bit_depth=1 to an OGG target
passes validation with no subtype. -/
theorem write_ogg_mp3_ignores_bit_depth_witness :
    writeValidate ("ogg") 1 1 = Except.ok none :=
  write_ogg_mp3_ignores_bit_depth "ogg" 1 1 (Or.inl rfl)
    (fun maxCh hm => by simp [MAX_CHANNELS] at hm; omega)

/-! ## The external probe chains of `channels` and `sampling_rate`
(`audiofile/core/info.py`, lines 174-189 and 376-392)

For a non-natively-decodable file both accessors run `soxi` first and
fall back to `mediainfo`.  Each command invocation is classified by its
outcome: the binary is absent (Python `FileNotFoundError`), the command
exits non-zero (`subprocess.CalledProcessError`, modelled by `none`
output), or it prints a token (`run` returns the first whitespace token,
or the empty string for empty output). -/

/-- Python `int(text)` on the token `run` returned: an optional sign
followed by at least one digit; anything else — including the empty
string — raises ValueError, modelled by `none`. -/
def parseInt? (s : String) : Option ℤ :=
  let digits : List Char → Option ℤ := fun cs =>
    if cs ≠ [] ∧ cs.all Char.isDigit then
      some (cs.foldl (fun a c => a * 10 + ((c.toNat - 48 : ℕ) : ℤ)) 0)
    else none
  match s.toList with
  | '-' :: rest => (digits rest).map Neg.neg
  | '+' :: rest => digits rest
  | cs => digits cs

/-- The outcomes of the external commands the two accessors may run on
one file.  A `Bool` flags a missing binary; an `Option String` is the
first stdout token of one specific invocation (`none` = non-zero exit). -/
structure ProbeEnv where
  soxiMissing : Bool
  soxiOut : Option String
  mediainfoMissing : Bool
  miChannelsOrig : Option String
  miChannels : Option String
  miRate : Option String
deriving DecidableEq

/-- How a probe chain ends when it does not return a value:
`binary_missing_error(tool)`, `broken_file_error(file)`, or a Python
exception the chain does not catch. -/
inductive ProbeError where
  | binaryMissing (tool : String)
  | brokenFile
  | uncaughtValueError
deriving DecidableEq

/-- The innermost fallback of `channels` (lines 186-189): the alternate
mediainfo query `%Channel(s)%`; ValueError and CalledProcessError both
become `broken_file_error`. -/
def channelsMediaCmd2 (env : ProbeEnv) : Except ProbeError ℤ :=
  match env.miChannels with
  | some s =>
    match parseInt? s with
    | some n => .ok n
    | none => .error .brokenFile
  | none => .error .brokenFile

/-- The mediainfo fallback of `channels` (lines 179-189): a missing
mediainfo binary is raised immediately as `binary_missing_error`; a
ValueError or CalledProcessError from the `%Channel(s)_Original%` query
moves on to the alternate query. -/
def channelsMediaFallback (env : ProbeEnv) : Except ProbeError ℤ :=
  if env.mediainfoMissing then .error (.binaryMissing ("mediainfo"))
  else
    match env.miChannelsOrig with
    | some s =>
      match parseInt? s with
      | some n => .ok n
      | none => channelsMediaCmd2 env
    | none => channelsMediaCmd2 env

/-- `channels` for a non-native file (lines 174-189): `soxi -c` first;
both a missing soxi binary and a failing soxi invocation fall through to
mediainfo; a ValueError from `int()` on soxi's output is not caught. -/
def channelsExternal (env : ProbeEnv) : Except ProbeError ℤ :=
  if env.soxiMissing then channelsMediaFallback env
  else
    match env.soxiOut with
    | none => channelsMediaFallback env
    | some s =>
      match parseInt? s with
      | some n => .ok n
      | none => .error .uncaughtValueError

/-- The mediainfo fallback of `sampling_rate` (lines 380-392): a missing
binary is raised immediately; empty output raises CalledProcessError
which the chain turns into `broken_file_error`; `int()`'s ValueError is
not caught here. -/
def samplingRateMediaFallback (env : ProbeEnv) : Except ProbeError ℤ :=
  if env.mediainfoMissing then .error (.binaryMissing ("mediainfo"))
  else
    match env.miRate with
    | none => .error .brokenFile
    | some s =>
      if s = "" then .error .brokenFile
      else
        match parseInt? s with
        | some n => .ok n
        | none => .error .uncaughtValueError

/-- `sampling_rate` for a non-native file (lines 376-392): `soxi -r`
first, with the same fall-through to mediainfo as `channels`. -/
def samplingRateExternal (env : ProbeEnv) : Except ProbeError ℤ :=
  if env.soxiMissing then samplingRateMediaFallback env
  else
    match env.soxiOut with
    | none => samplingRateMediaFallback env
    | some s =>
      match parseInt? s with
      | some n => .ok n
      | none => .error .uncaughtValueError

/-- C8 (counterexample): the claim says a missing probe binary is raised
immediately and the fallback tool is never tried.  With the soxi binary
missing and mediainfo reporting 2 channels, `channels` succeeds through
the mediainfo fallback — the missing soxi binary became a successful
fallback result instead of an error. -/
theorem probe_c8_counterexample :
    channelsExternal ⟨true, none, false, some ("2"), none, none⟩
      = Except.ok 2 := by
  rfl

/-- C8 (amended): in the probe chains of `channels` and `sampling_rate`,
only the mediainfo binary obeys the claim: once the chain reaches the
fallback (soxi missing or failed), a missing mediainfo binary is raised
immediately as a missing-binary error — never retried with the alternate
mediainfo query, never converted to a corrupt-file error or a result.  A
missing soxi binary, by contrast, falls through to the fallback. -/
theorem probe_missing_mediainfo (env : ProbeEnv)
    (hsoxi : env.soxiMissing = true ∨ env.soxiOut = none)
    (hmi : env.mediainfoMissing = true) :
    channelsExternal env = Except.error (.binaryMissing ("mediainfo"))
    ∧ samplingRateExternal env = Except.error (.binaryMissing ("mediainfo")) := by
  constructor
  · rcases hsoxi with h | h
    · simp [channelsExternal, h, channelsMediaFallback, hmi]
    · cases hs : env.soxiMissing
      · simp [channelsExternal, hs, h, channelsMediaFallback, hmi]
      · simp [channelsExternal, hs, channelsMediaFallback, hmi]
  · rcases hsoxi with h | h
    · simp [samplingRateExternal, h, samplingRateMediaFallback, hmi]
    · cases hs : env.soxiMissing
      · simp [samplingRateExternal, hs, h, samplingRateMediaFallback, hmi]
      · simp [samplingRateExternal, hs, samplingRateMediaFallback, hmi]

/-- Witness for the amended C8: with both binaries missing, both
accessors raise the mediainfo missing-binary error. -/
theorem probe_missing_mediainfo_witness :
    channelsExternal ⟨true, none, true, none, none, none⟩
      = Except.error (.binaryMissing ("mediainfo"))
    ∧ samplingRateExternal ⟨true, none, true, none, none, none⟩
      = Except.error (.binaryMissing ("mediainfo")) :=
  probe_missing_mediainfo ⟨true, none, true, none, none, none⟩ (Or.inl rfl) rfl

/-! ## Exact-mode duration vs. sample count (`duration` and `samples` in
`audiofile/core/info.py`) -/

/-- `soundfile.info(file)` for a decodable file: frame count and
sampling rate; the duration it reports is frames divided by rate. -/
structure SFInfo where
  frames : ℕ
  samplerate : ℕ
deriving DecidableEq

/-- `info.duration` as soundfile computes it. -/
def SFInfo.duration (i : SFInfo) : ℚ := (i.frames : ℚ) / i.samplerate

/-- A readable file as the metadata resolvers see it: a native
(soundfile) format probed directly, or a foreign format characterised by
the WAV data `convert_to_wav` produces for it and the sampling rate the
soxi/mediainfo probe chain reports for it. -/
inductive AFile where
  | native (info : SFInfo)
  | foreign (wavInfo : SFInfo) (probedRate : ℕ)
deriving DecidableEq

/-- `samples_as_int` inside `samples` (lines 333-335):
`int(info.duration * info.samplerate)`; `int()` truncates, which on this
non-negative value is the floor. -/
def samplesAsInt (i : SFInfo) : ℤ := Int.floor (i.duration * i.samplerate)

/-- `audiofile.core.info.samples` (lines 307-346): the native probe, or a
full transcode to WAV followed by the same count on the transcoded data. -/
def samplesModel : AFile → ℤ
  | .native i => samplesAsInt i
  | .foreign w _ => samplesAsInt w

/-- `audiofile.core.info.sampling_rate` (lines 349-392): the native
probe, or the external probe chain's reported rate. -/
def samplingRateModel : AFile → ℕ
  | .native i => i.samplerate
  | .foreign _ r => r

/-- `audiofile.core.info.duration` with `sloppy=False` (lines 234-263):
`soundfile.info(file).duration` for native formats, else
`samples(file) / sampling_rate(file)`. -/
def durationModel : AFile → ℚ
  | .native i => i.duration
  | .foreign w r => (samplesModel (.foreign w r) : ℚ) / samplingRateModel (.foreign w r)

/-- C9: for every readable file with a positive sampling rate, exact-mode
duration equals the sample count divided by the sampling rate — on the
native path because `int(frames/rate * rate)` recovers the frame count,
and on the transcode path by construction. -/
theorem duration_samples_consistent (f : AFile)
    (hrate : 0 < samplingRateModel f) :
    durationModel f = (samplesModel f : ℚ) / samplingRateModel f := by
  cases f with
  | native i =>
    have hsr : (i.samplerate : ℚ) ≠ 0 := by
      have := Nat.cast_pos (α := ℚ) |>.mpr hrate
      exact this.ne'
    simp only [durationModel, samplesModel, samplesAsInt, SFInfo.duration,
      samplingRateModel] at *
    rw [div_mul_cancel₀ _ hsr, Int.floor_natCast]
    push_cast
    ring
  | foreign w r => rfl

/-- Witness for C9: a native file with 12000 frames at 8000 Hz has
duration 12000/8000 s, equal to its sample count over its rate. -/
theorem duration_samples_consistent_witness :
    durationModel (.native ⟨12000, 8000⟩)
      = (samplesModel (.native ⟨12000, 8000⟩) : ℚ)
        / samplingRateModel (.native ⟨12000, 8000⟩) :=
  duration_samples_consistent (.native ⟨12000, 8000⟩)
    (by norm_num [samplingRateModel])

end Audiofile
